import Mathlib

set_option maxHeartbeats 1000000

/-!
Shallow embedding of the EdgeSAM inference orchestration layer
(src/edgeSam.h and src/edgeSam.cpp): model construction with shape
introspection, image preprocessing and the embedding cache, prompt
encoding, decoder input assembly, and mask postprocessing.  External
collaborators (the two ONNX Runtime sessions and the OpenCV resize) are
modelled as opaque function parameters; machine floats are modelled as
rationals; fallible paths return Option or an explicit error value, and
undefined behavior (out-of-bounds container access) is modelled as none.
-/

/-- Mirrors cv::Point (integer coordinates). -/
structure Pt where
  x : Int
  y : Int
deriving DecidableEq

/-- Mirrors cv::Size (width, height). -/
structure CvSize where
  width : Int
  height : Int
deriving DecidableEq

/-- Mirrors cv::Rect (x, y, width, height). -/
structure Rect where
  x : Int
  y : Int
  width : Int
  height : Int
deriving DecidableEq

/-- Mirrors cv::Rect::empty(): width <= 0 or height <= 0. -/
def Rect.empty (r : Rect) : Bool :=
  decide (r.width ≤ 0 ∨ r.height ≤ 0)

/-- The x coordinate of cv::Rect::br(), namely x + width. -/
def Rect.brx (r : Rect) : Int := r.x + r.width

/-- The y coordinate of cv::Rect::br(), namely y + height. -/
def Rect.bry (r : Rect) : Int := r.y + r.height

/-- The default cv::Rect passed by the no-box overloads of Sam::getMask. -/
def rect0 : Rect := ⟨0, 0, 0, 0⟩

/-- Names of the decoder input tensors, mirroring the C string array
inputNamesEdgeSam in the source. -/
inductive TName where
  | image_embeddings
  | point_coords
  | point_labels
deriving DecidableEq

/-- Element count of a tensor shape: product over all dimensions, as used
by Ort::Value::CreateTensor for validating buffer sizes. -/
def numel (s : List Int) : Int := s.prod

/-- The four-factor element count s[0]*s[1]*s[2]*s[3] that loadImage in the
source computes explicitly when sizing its buffers. -/
def numel4 (s : List Int) : Int :=
  s.getD 0 0 * s.getD 1 0 * s.getD 2 0 * s.getD 3 0

/-- A named tensor value handed to the decoder session. -/
structure Tensor where
  name : TName
  shape : List Int
  data : List Rat
deriving DecidableEq

/-- Mirrors Ort::Value::CreateTensor, which throws unless the supplied
buffer length equals the element count of the declared shape; the throwing
path is modelled as none. -/
def createTensor (nm : TName) (dat : List Rat) (shape : List Int) : Option Tensor :=
  if (dat.length : Int) = numel shape then some ⟨nm, shape, dat⟩ else none

/-- Abstraction of one ONNX model file as the constructor observes it:
whether the file opens (std::ifstream good), the session input/output
counts, and the shape of input 0 and output 0. -/
structure ModelFile where
  good : Bool
  inputCount : Nat
  outputCount : Nat
  inputShape : List Int
  outputShape : List Int
deriving DecidableEq

/-- The fields of struct SamModel that carry state: the two introspected
shapes of the embedding model, the embedding cache buffer
outputTensorValuesPre, and the readiness flag bModelLoaded. -/
structure SamModel where
  inputShapePre : List Int
  outputShapePre : List Int
  outputTensorValuesPre : List Rat
  bModelLoaded : Bool
deriving DecidableEq

/-- The member-initialized state of a fresh SamModel object before its
constructor body runs: empty vectors and bModelLoaded = false. -/
def initSamModel : SamModel := ⟨[], [], [], false⟩

/-- The SamModel constructor (edgeSam.cpp lines 20-56): checks that both
model files open, that the embedding model has 1 input and 1 output, that
the decoder model has 3 inputs, then extracts the embedding model input
and output shapes and checks both have rank 4.  Every early return leaves
the state as assigned so far with bModelLoaded = false. -/
def SamModel.construct (pre sam : ModelFile) : SamModel :=
  if pre.good = false ∨ sam.good = false then initSamModel
  else if ¬(pre.inputCount = 1) ∨ ¬(pre.outputCount = 1) then initSamModel
  else if ¬(sam.inputCount = 3) then initSamModel
  else if ¬(pre.inputShape.length = 4) ∨ ¬(pre.outputShape.length = 4) then
    { inputShapePre := pre.inputShape, outputShapePre := pre.outputShape,
      outputTensorValuesPre := [], bModelLoaded := false }
  else
    { inputShapePre := pre.inputShape, outputShapePre := pre.outputShape,
      outputTensorValuesPre := [], bModelLoaded := true }

/-- SamModel::getInputSize (lines 58-61): returns (0,0) when the model is
not loaded, otherwise cv::Size(inputShapePre[3], inputShapePre[2]). -/
def SamModel.getInputSize (m : SamModel) : CvSize :=
  if m.bModelLoaded = false then ⟨0, 0⟩
  else ⟨m.inputShapePre.getD 3 0, m.inputShapePre.getD 2 0⟩

/-- A 3-channel 8-bit image as loadImage reads it: spatial size plus a
pixel accessor returning the BGR byte triple at row i, column j (channel
index as in cv::Vec3b: 0 = blue, 1 = green, 2 = red). -/
structure Image where
  width : Int
  height : Int
  channels : Nat
  pixel : Nat → Nat → Fin 3 → Fin 256

/-- One channel plane of the preprocessed input, filled row-major, as the
nested i and j loops of loadImage write it. -/
def gridPlane (img : Image) (h w : Nat) (ch : Fin 3) : List Rat :=
  (List.range h).flatMap fun i => (List.range w).map fun j => ((img.pixel i j ch : Nat) : Rat)

/-- The preprocessing of loadImage (lines 72-87): a buffer of
s[0]*s[1]*s[2]*s[3] zeros receives, in planar layout, the red plane (byte
channel 2), then the green plane (channel 1), then the blue plane
(channel 0), each row-major over s[2] rows and s[3] columns, and finally
every entry is divided by 255.  When the buffer is too small for the
3*h*w writes the source writes out of bounds; that is modelled as none. -/
def preprocessTensor (img : Image) (s : List Int) : Option (List Rat) :=
  let h := (s.getD 2 0).toNat
  let w := (s.getD 3 0).toNat
  let total := (numel4 s).toNat
  if total < 3 * h * w then none
  else some
    (((gridPlane img h w 2 ++ gridPlane img h w 1 ++ gridPlane img h w 0)
        ++ List.replicate (total - 3 * h * w) 0).map (fun v => v / 255))

/-- The planar normalized input tensor in the common case of an input
shape [1, 3, h, w]: red plane, green plane, blue plane, each divided
by 255. -/
def planarImage (img : Image) (h w : Nat) : List Rat :=
  ((gridPlane img h w 2 ++ gridPlane img h w 1 ++ gridPlane img h w 0).map (fun v => v / 255))

/-- The embedding session Run call, as an opaque map from the flat input
buffer to the entries of the flat output buffer it fills. -/
abbrev EncoderRun : Type := List Rat → Nat → Rat

/-- The two unguarded reads inputShapePre[3] and inputShapePre[2] that
open SamModel::loadImage (line 63); none models the out-of-bounds case. -/
def SamModel.loadImageShapeRead (m : SamModel) : Option (Int × Int) :=
  match m.inputShapePre.get? 3, m.inputShapePre.get? 2 with
  | some w, some h => some (w, h)
  | _, _ => none

/-- The four unguarded reads outputShapePre[0], [1], [2] and [3] with
which loadImage sizes the embedding cache buffer (line 93), multiplied
out; none models the out-of-bounds case of a shape vector shorter than 4
(reachable when construction failed its rank check). -/
def SamModel.outputSizeRead (m : SamModel) : Option Int :=
  match m.outputShapePre.get? 0, m.outputShapePre.get? 1,
        m.outputShapePre.get? 2, m.outputShapePre.get? 3 with
  | some a, some b, some c, some d => some (a * b * c * d)
  | _, _, _, _ => none

/-- SamModel::loadImage (lines 62-105): rejects an image whose size is not
(inputShapePre[3], inputShapePre[2]) or whose channel count is not 3,
returning false with the state untouched; otherwise preprocesses the
image (the reads of inputShapePre at indices 0 to 3 inside the
preprocessing are in bounds because the initial read of index 3
succeeded), then allocates the embedding cache buffer of
outputShapePre[0]*...*outputShapePre[3] entries (unguarded reads,
modelled as none when out of bounds) and lets the embedding session fill
it. -/
def SamModel.loadImage (m : SamModel) (enc : EncoderRun) (img : Image) :
    Option (Bool × SamModel) :=
  match m.loadImageShapeRead with
  | none => none
  | some (w, h) =>
    if img.width = w ∧ img.height = h then
      if img.channels = 3 then
        match preprocessTensor img m.inputShapePre with
        | none => none
        | some t =>
          match m.outputSizeRead with
          | none => none
          | some n =>
            some (true, { m with
              outputTensorValuesPre := (List.range n.toNat).map (enc t) })
      else some (false, m)
    else some (false, m)

/-- One of the two push loops of SamModel::getMask (lines 116-125): for
each point, append its x and y to the coordinate vector and the fixed
label lab to the label vector. -/
def pushPoints (lab : Rat) (l : List Pt) (acc : List Rat × List Rat) :
    List Rat × List Rat :=
  l.foldl (fun acc q => (acc.1 ++ [(q.x : Rat), (q.y : Rat)], acc.2 ++ [lab])) acc

/-- The prompt encoding of SamModel::getMask (lines 115-134): positive
points with label 1, then negative points with label 0, then, when
roi.empty() is false, the box top-left corner with label 2 and br() with
label 3. -/
def SamModel.encodePrompt (points negativePoints : List Pt) (roi : Rect) :
    List Rat × List Rat :=
  let s := pushPoints 0 negativePoints (pushPoints 1 points ([], []))
  if roi.empty = true then s
  else (s.1 ++ [(roi.x : Rat), (roi.y : Rat), (roi.brx : Rat), (roi.bry : Rat)],
        s.2 ++ [2, 3])

/-- The decoder session Run output: the shape of the mask logits tensor,
its flat data, and the flat data of the scores tensor. -/
structure DecoderResult where
  maskShape : List Int
  maskData : Nat → Rat
  iouData : Nat → Rat

/-- The decoder session Run call, opaque. -/
abbrev DecoderRun : Type := List Tensor → DecoderResult

/-- The cv::resize call, opaque: source rows, source cols, destination
rows, destination cols, and the source pixel function give the resized
pixel function. -/
abbrev ResizeFn : Type :=
  Int → Int → Int → Int → (Int → Int → Rat) → Int → Int → Rat

/-- Reading the mask logits mat at row i, column j, row-major with
maskShape[3] columns (the cv::Mat wrapped around the decoder output at
line 171). -/
def rawLogits (shape : List Int) (dat : Nat → Rat) : Int → Int → Rat :=
  fun i j => dat (i * shape.getD 3 0 + j).toNat

/-- The per-pixel write of lines 178-182: 255 when the logit is strictly
positive, 0 otherwise. -/
def thresholdPixel (v : Rat) : Nat := if 0 < v then 255 else 0

/-- Lines 168-182 of SamModel::getMask: wrap the decoder mask output as a
maskShape[2] x maskShape[3] float mat, resize it to the output size when
the sizes differ, then threshold every pixel against zero. -/
def postprocessMask (rf : ResizeFn) (maskShape : List Int) (dat : Nat → Rat)
    (outRows outCols : Int) : Int → Int → Nat :=
  let mRows := maskShape.getD 2 0
  let mCols := maskShape.getD 3 0
  let resized :=
    if mRows = outRows ∧ mCols = outCols then rawLogits maskShape dat
    else rf mRows mCols outRows outCols (rawLogits maskShape dat)
  fun i j => thresholdPixel (resized i j)

/-- Failure modes of the embedded getMask.  oobAccess models an
out-of-bounds std::vector read (undefined behavior), ortException models
a thrown Ort::Exception (here: CreateTensor buffer size mismatch).
Modelled from the spec: noImageLoaded renders the DecodeError::NoImageLoaded
value the spec describes for a getMask call before any successful
loadImage; the code never produces it. -/
inductive SamErr where
  | oobAccess
  | ortException
  | noImageLoaded
deriving DecidableEq

/-- What a getMask call produces: the output mask dimensions, the binary
mask, the IoU value read from the scores output, and (for observability)
the exact list of tensors passed to the decoder Run call. -/
structure MaskResult where
  rows : Int
  cols : Int
  mask : Int → Int → Nat
  iouValue : Rat
  decoderInputs : List Tensor

/-- The three tensors SamModel::getMask pushes into inputTensorsSam
(lines 141-157): the cached embedding with the introspected output shape,
the encoded coordinates with shape [1, N, 2], and the encoded labels with
shape [1, N]. -/
def decoderInputsOf (m : SamModel) (points negativePoints : List Pt) (roi : Rect) :
    List Tensor :=
  let cl := SamModel.encodePrompt points negativePoints roi
  [⟨TName.image_embeddings, m.outputShapePre, m.outputTensorValuesPre⟩,
   ⟨TName.point_coords, [1, (cl.2.length : Int), 2], cl.1⟩,
   ⟨TName.point_labels, [1, (cl.2.length : Int)], cl.2⟩]

/-- SamModel::getMask (lines 107-185).  Reads inputShapePre[2] and
inputShapePre[3] (unguarded; out of bounds when the shape vector is too
short), encodes the prompt, creates the three decoder input tensors (the
embedding creation throws when the cache length does not match the
declared shape), runs the decoder, and postprocesses the mask output to a
binary mask of inputShapePre[2] rows and inputShapePre[3] columns.  The
source also fills a 256x256 all-zero mask prior, a zero has-mask flag and
a 2-entry image-size array (lines 109-113 and 137-139) but never passes
them to the decoder; having no observable effect, they are omitted. -/
def SamModel.getMask (m : SamModel) (dec : DecoderRun) (rf : ResizeFn)
    (points negativePoints : List Pt) (roi : Rect) : Except SamErr MaskResult :=
  match m.inputShapePre.get? 2, m.inputShapePre.get? 3 with
  | some h, some w =>
    let cl := SamModel.encodePrompt points negativePoints roi
    match createTensor TName.image_embeddings m.outputTensorValuesPre m.outputShapePre with
    | none => Except.error SamErr.ortException
    | some emb =>
      match createTensor TName.point_coords cl.1 [1, (cl.2.length : Int), 2],
            createTensor TName.point_labels cl.2 [1, (cl.2.length : Int)] with
      | some pc, some pl =>
        let ts := [emb, pc, pl]
        let dr := dec ts
        Except.ok ⟨h, w, postprocessMask rf dr.maskShape dr.maskData h w,
                   dr.iouData 0, ts⟩
      | _, _ => Except.error SamErr.ortException
  | _, _ => Except.error SamErr.oobAccess


/-- Unfolding the point push loop: it appends the flattened coordinates
and one copy of the label per point to the accumulator. -/
lemma pushPoints_eq (lab : Rat) : ∀ (l : List Pt) (acc : List Rat × List Rat),
    pushPoints lab l acc =
      (acc.1 ++ l.flatMap (fun q => [(q.x : Rat), (q.y : Rat)]),
       acc.2 ++ l.map (fun _ => lab)) := by
  intro l
  induction l with
  | nil => intro acc; simp [pushPoints]
  | cons q l ih =>
    intro acc
    show pushPoints lab l (acc.1 ++ [(q.x : Rat), (q.y : Rat)], acc.2 ++ [lab]) = _
    rw [ih]
    simp [List.append_assoc]

/-- Closed form of the prompt encoding: positive coordinates, negative
coordinates, then the optional box corners; labels 1, 0, then 2 and 3. -/
lemma encodePrompt_eq (p nq : List Pt) (r : Rect) :
    SamModel.encodePrompt p nq r =
      (p.flatMap (fun q => [(q.x : Rat), (q.y : Rat)]) ++
         nq.flatMap (fun q => [(q.x : Rat), (q.y : Rat)]) ++
         (if r.empty = true then []
          else [(r.x : Rat), (r.y : Rat), (r.brx : Rat), (r.bry : Rat)]),
       p.map (fun _ => (1 : Rat)) ++ nq.map (fun _ => (0 : Rat)) ++
         (if r.empty = true then [] else [2, 3])) := by
  unfold SamModel.encodePrompt
  rw [pushPoints_eq, pushPoints_eq]
  by_cases h : r.empty = true <;> simp [h, List.append_assoc]

/-- Flattened coordinate lists have twice as many entries as points. -/
lemma coordsFlat_length : ∀ l : List Pt,
    (l.flatMap (fun q => [(q.x : Rat), (q.y : Rat)])).length = 2 * l.length := by
  intro l
  induction l with
  | nil => simp
  | cons q l ih => simp only [List.flatMap_cons, List.length_append, ih]; simp; omega

/-- The encoded coordinate array is twice as long as the label array. -/
lemma encodePrompt_len (p nq : List Pt) (r : Rect) :
    (SamModel.encodePrompt p nq r).1.length =
      2 * (SamModel.encodePrompt p nq r).2.length := by
  rw [encodePrompt_eq]
  by_cases h : r.empty = true
  · rw [if_pos h, if_pos h]
    simp only [List.length_append, coordsFlat_length, List.length_map, List.length_nil]
    omega
  · rw [if_neg h, if_neg h]
    simp only [List.length_append, coordsFlat_length, List.length_map, List.length_cons,
      List.length_nil]
    omega

/-- In a shape vector of length 4, the indices 2 and 3 are in bounds. -/
lemma len4_get (l : List Int) (hl : l.length = 4) :
    l.get? 2 = some (l.getD 2 0) ∧ l.get? 3 = some (l.getD 3 0) := by
  rcases l with _ | ⟨a, l⟩
  · simp at hl
  rcases l with _ | ⟨b, l⟩
  · simp at hl
  rcases l with _ | ⟨c, l⟩
  · simp at hl
  rcases l with _ | ⟨d, l⟩
  · simp at hl
  rcases l with _ | ⟨e, l⟩
  · exact ⟨rfl, rfl⟩
  · simp at hl

/-- An in-bounds get? read returns the getD value. -/
lemma get?_eq_getD_of_lt (l : List Int) (i : Nat) (hi : i < l.length) :
    l.get? i = some (l.getD i 0) := by
  rw [List.get?_eq_getElem?, List.getElem?_eq_getElem hi, List.getD_eq_getElem l 0 hi]

/-- When the embedding output shape has at least 4 entries, the four
cache-sizing reads are in bounds and their product is numel4. -/
lemma outputSizeRead_of_len (m : SamModel) (hos : 3 < m.outputShapePre.length) :
    m.outputSizeRead = some (numel4 m.outputShapePre) := by
  have h0 := get?_eq_getD_of_lt m.outputShapePre 0 (by omega)
  have h1 := get?_eq_getD_of_lt m.outputShapePre 1 (by omega)
  have h2 := get?_eq_getD_of_lt m.outputShapePre 2 (by omega)
  have h3 := get?_eq_getD_of_lt m.outputShapePre 3 (by omega)
  simp only [SamModel.outputSizeRead, h0, h1, h2, h3]
  rfl

/-- Length of a row-major grid built over h rows of w entries each. -/
lemma grid_length (f : Nat → List Rat) (w : Nat) (hf : ∀ i, (f i).length = w) :
    ∀ h, ((List.range h).flatMap f).length = h * w := by
  intro h
  induction h with
  | zero => simp
  | succ h ih =>
    rw [List.range_succ, List.flatMap_append]
    simp [ih, hf, Nat.succ_mul]

/-- A row-major index into an h x w grid is within bounds. -/
lemma grid_idx_lt (h w i j : Nat) (hi : i < h) (hj : j < w) : i * w + j < h * w :=
  calc i * w + j < i * w + w := Nat.add_lt_add_left hj _
    _ = (i + 1) * w := (Nat.succ_mul i w).symm
    _ ≤ h * w := Nat.mul_le_mul_right w hi

/-- Reading a row-major grid at index i*w+j yields the (i, j) entry. -/
lemma grid_get (f : Nat → Nat → Rat) (w : Nat) :
    ∀ (h i j : Nat), i < h → j < w →
      (((List.range h).flatMap fun i2 => (List.range w).map fun j2 => f i2 j2).get?
        (i * w + j)) = some (f i j) := by
  intro h
  induction h with
  | zero => intro i j hi hj; exact absurd hi (Nat.not_lt_zero i)
  | succ h ih =>
    intro i j hi hj
    have hlen : ((List.range h).flatMap fun i2 =>
        (List.range w).map fun j2 => f i2 j2).length = h * w :=
      grid_length _ w (fun _ => by simp) h
    rw [List.range_succ, List.flatMap_append]
    rcases Nat.lt_or_ge i h with hlt | hge
    · rw [List.get?_append (by rw [hlen]; exact grid_idx_lt h w i j hlt hj)]
      exact ih i j hlt hj
    · have hi2 : i = h := by omega
      subst hi2
      rw [List.get?_append_right (by rw [hlen]; exact Nat.le_add_right _ _)]
      rw [hlen]
      have hidx : i * w + j - i * w = j := by omega
      rw [hidx]
      simp [List.get?_eq_getElem?, List.getElem?_map, List.getElem?_range hj]

/-- Length of one channel plane. -/
lemma gridPlane_length (img : Image) (h w : Nat) (ch : Fin 3) :
    (gridPlane img h w ch).length = h * w := by
  unfold gridPlane
  exact grid_length _ w (fun _ => by simp) h

/-- Reading one channel plane at the row-major index. -/
lemma gridPlane_get (img : Image) (h w i j : Nat) (ch : Fin 3)
    (hi : i < h) (hj : j < w) :
    (gridPlane img h w ch).get? (i * w + j) = some ((img.pixel i j ch : Nat) : Rat) :=
  grid_get (fun a b => ((img.pixel a b ch : Nat) : Rat)) w h i j hi hj

/-- On an input shape [1, 3, h, w] the preprocessing buffer is exactly the
three normalized planes with no padding. -/
lemma preprocess_planar (img : Image) (h w : Nat) :
    preprocessTensor img [1, 3, (h : Int), (w : Int)] = some (planarImage img h w) := by
  have h2 : (([1, 3, (h : Int), (w : Int)].getD 2 0).toNat) = h := rfl
  have h3 : (([1, 3, (h : Int), (w : Int)].getD 3 0).toNat) = w := rfl
  have hnum : (numel4 [1, 3, (h : Int), (w : Int)]).toNat = 3 * h * w := by
    have he : numel4 [1, 3, (h : Int), (w : Int)] = ((3 * h * w : Nat) : Int) := by
      show (1 : Int) * 3 * (h : Int) * (w : Int) = ((3 * h * w : Nat) : Int)
      push_cast
      ring
    rw [he, Int.toNat_natCast]
  simp only [preprocessTensor, h2, h3, hnum]
  rw [if_neg (lt_irrefl _)]
  simp [planarImage, Nat.sub_self]

/-- Planar layout of the normalized input: index c*h*w + i*w + j holds the
value of byte channel 2-c at pixel (i, j), divided by 255. -/
lemma planarImage_get (img : Image) (h w i j : Nat) (hi : i < h) (hj : j < w) :
    (planarImage img h w).get? (i * w + j) =
      some (((img.pixel i j 2 : Nat) : Rat) / 255) ∧
    (planarImage img h w).get? (h * w + (i * w + j)) =
      some (((img.pixel i j 1 : Nat) : Rat) / 255) ∧
    (planarImage img h w).get? (2 * (h * w) + (i * w + j)) =
      some (((img.pixel i j 0 : Nat) : Rat) / 255) := by
  have hidx := grid_idx_lt h w i j hi hj
  have hl2 := gridPlane_length img h w 2
  have hl1 := gridPlane_length img h w 1
  have hl0 := gridPlane_length img h w 0
  refine ⟨?_, ?_, ?_⟩
  · rw [planarImage, List.get?_map]
    rw [List.get?_append (by rw [List.length_append, hl2, hl1]; omega)]
    rw [List.get?_append (by rw [hl2]; exact hidx)]
    rw [gridPlane_get img h w i j 2 hi hj]
    rfl
  · rw [planarImage, List.get?_map]
    rw [List.get?_append (by rw [List.length_append, hl2, hl1]; omega)]
    rw [List.get?_append_right (by rw [hl2]; omega)]
    rw [hl2]
    have he : h * w + (i * w + j) - h * w = i * w + j := by omega
    rw [he, gridPlane_get img h w i j 1 hi hj]
    rfl
  · rw [planarImage, List.get?_map]
    rw [List.get?_append_right (by rw [List.length_append, hl2, hl1]; omega)]
    rw [List.length_append, hl2, hl1]
    have he : 2 * (h * w) + (i * w + j) - (h * w + h * w) = i * w + j := by omega
    rw [he, gridPlane_get img h w i j 0 hi hj]
    rfl

/-- Every entry of the normalized input lies in the interval [0, 1]. -/
lemma planarImage_mem (img : Image) (h w : Nat) :
    ∀ v ∈ planarImage img h w, 0 ≤ v ∧ v ≤ 1 := by
  intro v hv
  simp only [planarImage, List.mem_map] at hv
  obtain ⟨u, hu, rfl⟩ := hv
  have hpx : ∃ px : Fin 256, u = ((px : Nat) : Rat) := by
    simp only [List.mem_append, gridPlane, List.mem_flatMap, List.mem_map,
      List.mem_range] at hu
    rcases hu with (⟨i2, hi2, j2, hj2, rfl⟩ | ⟨i2, hi2, j2, hj2, rfl⟩) |
      ⟨i2, hi2, j2, hj2, rfl⟩
    · exact ⟨img.pixel i2 j2 2, rfl⟩
    · exact ⟨img.pixel i2 j2 1, rfl⟩
    · exact ⟨img.pixel i2 j2 0, rfl⟩
  obtain ⟨px, rfl⟩ := hpx
  constructor
  · positivity
  · rw [div_le_one (by norm_num)]
    have : (px : Nat) ≤ 255 := Nat.le_of_lt_succ px.isLt
    exact_mod_cast this

/-- Element count of the point-coordinates shape [1, N, 2]. -/
lemma numel_coords (n : Int) : numel [1, n, 2] = 2 * n := by
  simp only [numel, List.prod_cons, List.prod_nil]
  ring

/-- Element count of the point-labels shape [1, N]. -/
lemma numel_labels (n : Int) : numel [1, n] = n := by
  simp only [numel, List.prod_cons, List.prod_nil]
  ring

/-- Characterization of a successful getMask call: when the shape reads
are in bounds and the cache length matches the embedding output shape,
the call succeeds, passes exactly the three assembled tensors to the
decoder, and postprocesses the decoder mask output at the input spatial
size. -/
lemma getMask_ok (m : SamModel) (dec : DecoderRun) (rf : ResizeFn)
    (points negativePoints : List Pt) (roi : Rect) (h w : Int)
    (h2 : m.inputShapePre.get? 2 = some h) (h3 : m.inputShapePre.get? 3 = some w)
    (hc : (m.outputTensorValuesPre.length : Int) = numel m.outputShapePre) :
    m.getMask dec rf points negativePoints roi =
      Except.ok ⟨h, w,
        postprocessMask rf (dec (decoderInputsOf m points negativePoints roi)).maskShape
          (dec (decoderInputsOf m points negativePoints roi)).maskData h w,
        (dec (decoderInputsOf m points negativePoints roi)).iouData 0,
        decoderInputsOf m points negativePoints roi⟩ := by
  have hpcLen : ((SamModel.encodePrompt points negativePoints roi).1.length : Int) =
      numel [1, ((SamModel.encodePrompt points negativePoints roi).2.length : Int), 2] := by
    rw [encodePrompt_len, numel_coords]
    push_cast
    ring
  have hplLen : ((SamModel.encodePrompt points negativePoints roi).2.length : Int) =
      numel [1, ((SamModel.encodePrompt points negativePoints roi).2.length : Int)] := by
    rw [numel_labels]
  have hemb : createTensor TName.image_embeddings m.outputTensorValuesPre m.outputShapePre =
      some ⟨TName.image_embeddings, m.outputShapePre, m.outputTensorValuesPre⟩ := by
    simp only [createTensor]
    rw [if_pos hc]
  have hpc : createTensor TName.point_coords (SamModel.encodePrompt points negativePoints roi).1
      [1, ((SamModel.encodePrompt points negativePoints roi).2.length : Int), 2] =
      some ⟨TName.point_coords,
        [1, ((SamModel.encodePrompt points negativePoints roi).2.length : Int), 2],
        (SamModel.encodePrompt points negativePoints roi).1⟩ := by
    simp only [createTensor]
    rw [if_pos hpcLen]
  have hpl : createTensor TName.point_labels (SamModel.encodePrompt points negativePoints roi).2
      [1, ((SamModel.encodePrompt points negativePoints roi).2.length : Int)] =
      some ⟨TName.point_labels,
        [1, ((SamModel.encodePrompt points negativePoints roi).2.length : Int)],
        (SamModel.encodePrompt points negativePoints roi).2⟩ := by
    simp only [createTensor]
    rw [if_pos hplLen]
  simp only [SamModel.getMask, h2, h3, hemb, hpc, hpl, decoderInputsOf]

/-- When the two shape reads are in bounds, getMask never reports the
out-of-bounds access outcome. -/
lemma getMask_not_oob (m : SamModel) (dec : DecoderRun) (rf : ResizeFn)
    (points negativePoints : List Pt) (roi : Rect) (h w : Int)
    (h2 : m.inputShapePre.get? 2 = some h) (h3 : m.inputShapePre.get? 3 = some w) :
    m.getMask dec rf points negativePoints roi ≠ Except.error SamErr.oobAccess := by
  intro hco
  simp only [SamModel.getMask, h2, h3] at hco
  rcases hemb : createTensor TName.image_embeddings m.outputTensorValuesPre m.outputShapePre
    with _ | emb
  · rw [hemb] at hco
    exact SamErr.noConfusion (Except.error.inj hco)
  · rw [hemb] at hco
    rcases hpc : createTensor TName.point_coords
        (SamModel.encodePrompt points negativePoints roi).1
        [1, ((SamModel.encodePrompt points negativePoints roi).2.length : Int), 2]
      with _ | pc
    · rw [hpc] at hco
      exact SamErr.noConfusion (Except.error.inj hco)
    · rw [hpc] at hco
      rcases hpl : createTensor TName.point_labels
          (SamModel.encodePrompt points negativePoints roi).2
          [1, ((SamModel.encodePrompt points negativePoints roi).2.length : Int)]
        with _ | pl
      · rw [hpl] at hco
        exact SamErr.noConfusion (Except.error.inj hco)
      · rw [hpl] at hco
        exact Except.noConfusion hco

/-- The identity resize, used to instantiate the opaque resize in
concrete runs. -/
def idResize : ResizeFn := fun _ _ _ _ f => f

/-- A concrete decoder returning a 2x2 mask of positive logits and an IoU
score of one half. -/
def cdec3 : DecoderRun := fun _ => ⟨[1, 1, 2, 2], fun _ => 1, fun _ => 1 / 2⟩

/-- A concrete decoder returning a 1x2 mask with logits -1 and +1. -/
def cdecC6 : DecoderRun :=
  fun _ => ⟨[1, 1, 1, 2], fun k => if k = 0 then -1 else 1, fun _ => 1 / 2⟩

/-- A concrete embedding run producing all zeros. -/
def encZero : EncoderRun := fun _ _ => 0

/-- A loaded session state with input shape [1,3,2,2], embedding output
shape [1,1,1,1] and a one-entry embedding cache. -/
def cmLoaded : SamModel := ⟨[1, 3, 2, 2], [1, 1, 1, 1], [7], true⟩

/-- A well-formed embedding model file. -/
def preOk : ModelFile := ⟨true, 1, 1, [1, 3, 2, 2], [1, 1, 1, 1]⟩

/-- A well-formed decoder model file. -/
def samOk : ModelFile := ⟨true, 3, 2, [], []⟩

/-- The state right after a successful construction, before any loadImage
call: the embedding cache is still empty. -/
def freshState : SamModel := SamModel.construct preOk samOk

/-- An embedding model file whose input shape has rank 5: construction
fails its rank check after the shape vectors have been assigned. -/
def preRank5 : ModelFile := ⟨true, 1, 1, [1, 1, 3, 8, 8], [1, 1, 1, 1]⟩

/-- An embedding model file that fails to open. -/
def preMissing : ModelFile := ⟨false, 1, 1, [1, 3, 2, 2], [1, 1, 1, 1]⟩

/-- A 5x5 3-channel image, the wrong size for cmLoaded. -/
def imgBad : Image := ⟨5, 5, 3, fun _ _ _ => 9⟩

/-- A 1x1 3-channel image with all bytes 51. -/
def img1 : Image := ⟨1, 1, 3, fun _ _ _ => 51⟩

/-- A session state with input shape [1,3,1,1], matching img1. -/
def mW : SamModel := ⟨[1, 3, 1, 1], [1, 1, 1, 1], [], false⟩

/-- Claim C1 counterexample: on a loaded session with a one-point prompt,
the decoder Run call receives exactly three tensors, named
image_embeddings, point_coords and point_labels; no all-zero 256x256 mask
prior, no has-mask flag and no image-size vector is among them, so the
decoder is not invoked with the six inputs the claim enumerates. -/
theorem c1_counterexample :
    ((cmLoaded.getMask cdec3 idResize [⟨1, 1⟩] [] rect0).toOption.map
      (fun res => res.decoderInputs.map Tensor.name)) =
      some [TName.image_embeddings, TName.point_coords, TName.point_labels] ∧
    ((cmLoaded.getMask cdec3 idResize [⟨1, 1⟩] [] rect0).toOption.map
      (fun res => res.decoderInputs.length)) = some 3 ∧
    ¬(((cmLoaded.getMask cdec3 idResize [⟨1, 1⟩] [] rect0).toOption.map
      (fun res => res.decoderInputs.length)) = some 6) := by
  refine ⟨rfl, rfl, ?_⟩
  intro hco
  have h36 : (some 3 : Option Nat) = some 6 := by
    calc (some 3 : Option Nat)
        = ((cmLoaded.getMask cdec3 idResize [⟨1, 1⟩] [] rect0).toOption.map
            (fun res => res.decoderInputs.length)) := rfl
      _ = some 6 := hco
  exact absurd (Option.some.inj h36) (by decide)

/-- Claim C1 (amended): for every getMask call whose shape reads are in
bounds and whose cache matches the embedding output shape, the decoder is
invoked with exactly three inputs: the cached embedding tensor with the
introspected output shape, the encoded point coordinates with shape
1 x N x 2, and the encoded point labels with shape 1 x N; the constant
mask prior, has-mask flag and image-size vector are computed by the
source but never passed. -/
theorem c1_decoder_input_assembly (m : SamModel) (dec : DecoderRun) (rf : ResizeFn)
    (points negativePoints : List Pt) (roi : Rect) (h w : Int)
    (h2 : m.inputShapePre.get? 2 = some h) (h3 : m.inputShapePre.get? 3 = some w)
    (hc : (m.outputTensorValuesPre.length : Int) = numel m.outputShapePre) :
    m.getMask dec rf points negativePoints roi =
      Except.ok ⟨h, w,
        postprocessMask rf (dec (decoderInputsOf m points negativePoints roi)).maskShape
          (dec (decoderInputsOf m points negativePoints roi)).maskData h w,
        (dec (decoderInputsOf m points negativePoints roi)).iouData 0,
        decoderInputsOf m points negativePoints roi⟩ ∧
    decoderInputsOf m points negativePoints roi =
      [⟨TName.image_embeddings, m.outputShapePre, m.outputTensorValuesPre⟩,
       ⟨TName.point_coords,
        [1, ((SamModel.encodePrompt points negativePoints roi).2.length : Int), 2],
        (SamModel.encodePrompt points negativePoints roi).1⟩,
       ⟨TName.point_labels,
        [1, ((SamModel.encodePrompt points negativePoints roi).2.length : Int)],
        (SamModel.encodePrompt points negativePoints roi).2⟩] :=
  ⟨getMask_ok m dec rf points negativePoints roi h w h2 h3 hc, rfl⟩

/-- Witness for claim C1 at a concrete loaded state and prompt. -/
theorem c1_decoder_input_assembly_witness :
    cmLoaded.getMask cdec3 idResize [⟨1, 1⟩] [] rect0 =
      Except.ok ⟨2, 2,
        postprocessMask idResize
          (cdec3 (decoderInputsOf cmLoaded [⟨1, 1⟩] [] rect0)).maskShape
          (cdec3 (decoderInputsOf cmLoaded [⟨1, 1⟩] [] rect0)).maskData 2 2,
        (cdec3 (decoderInputsOf cmLoaded [⟨1, 1⟩] [] rect0)).iouData 0,
        decoderInputsOf cmLoaded [⟨1, 1⟩] [] rect0⟩ :=
  (c1_decoder_input_assembly cmLoaded cdec3 idResize [⟨1, 1⟩] [] rect0 2 2 rfl rfl rfl).1

/-- Claim C2 counterexample: freshState is a successfully constructed
session on which loadImage has never run; its getMask call produces the
runtime tensor-creation exception, not a noImageLoaded precondition
error. -/
theorem c2_counterexample :
    freshState.bModelLoaded = true ∧
    freshState.outputTensorValuesPre = [] ∧
    freshState.getMask cdec3 idResize [⟨1, 1⟩] [] rect0 =
      Except.error SamErr.ortException ∧
    SamErr.ortException ≠ SamErr.noImageLoaded := by
  refine ⟨rfl, rfl, rfl, by decide⟩

/-- Claim C2 (amended): getMask performs no no-image precondition check;
called with an empty embedding cache and a nonempty declared embedding
shape, creating the embedding input tensor fails (cache length 0 differs
from the shape element count) and the call surfaces the runtime exception
before any decoder invocation; no noImageLoaded error is produced. -/
theorem c2_no_image_check (m : SamModel) (dec : DecoderRun) (rf : ResizeFn)
    (points negativePoints : List Pt) (roi : Rect) (h w : Int)
    (h2 : m.inputShapePre.get? 2 = some h) (h3 : m.inputShapePre.get? 3 = some w)
    (hcache : m.outputTensorValuesPre = []) (hnum : ¬(numel m.outputShapePre = 0)) :
    m.getMask dec rf points negativePoints roi = Except.error SamErr.ortException := by
  have hzero : ¬(((m.outputTensorValuesPre.length : Nat) : Int) = numel m.outputShapePre) := by
    rw [hcache]
    simp only [List.length_nil, Nat.cast_zero]
    exact fun hEq => hnum hEq.symm
  have hct : createTensor TName.image_embeddings m.outputTensorValuesPre m.outputShapePre =
      none := by
    simp only [createTensor]
    exact if_neg hzero
  simp only [SamModel.getMask, h2, h3, hct]

/-- Witness for claim C2 on the freshly constructed state. -/
theorem c2_no_image_check_witness :
    freshState.getMask cdec3 idResize [] [] rect0 = Except.error SamErr.ortException :=
  c2_no_image_check freshState cdec3 idResize [] [] rect0 2 2 rfl rfl rfl (by decide)

/-- Claim C3 (confirmed): a loadImage call that fails input validation
(wrong spatial size or wrong channel count) returns false and leaves the
whole state, in particular the embedding cache, exactly as it was, so
later getMask calls still read the previous embedding. -/
theorem c3_failed_load_preserves_cache (m : SamModel) (enc : EncoderRun) (img : Image)
    (w h : Int) (h3 : m.inputShapePre.get? 3 = some w) (h2 : m.inputShapePre.get? 2 = some h)
    (hbad : ¬(img.width = w ∧ img.height = h) ∨ ¬(img.channels = 3)) :
    m.loadImage enc img = some (false, m) := by
  simp only [SamModel.loadImage, SamModel.loadImageShapeRead, h3, h2]
  rcases hbad with hb | hb
  · rw [if_neg hb]
  · by_cases hsz : img.width = w ∧ img.height = h
    · rw [if_pos hsz, if_neg hb]
    · rw [if_neg hsz]

/-- Witness for claim C3: a wrong-size image leaves cmLoaded unchanged. -/
theorem c3_failed_load_preserves_cache_witness :
    cmLoaded.loadImage encZero imgBad = some (false, cmLoaded) :=
  c3_failed_load_preserves_cache cmLoaded encZero imgBad 2 2 rfl rfl (Or.inl (by decide))

/-- Claim C4 counterexample: a zero-area box (width 0, height 0) is
dropped by the encoding: it contributes no coordinate entries and no
labels 2 and 3, rather than being passed through unmodified. -/
theorem c4_counterexample :
    SamModel.encodePrompt [] [] ⟨5, 5, 0, 0⟩ = ([], []) ∧
    (SamModel.encodePrompt [] [] ⟨5, 5, 0, 0⟩).2 ≠ [2, 3] := by
  refine ⟨rfl, by decide⟩

/-- Claim C4 (amended): a box contributes exactly two coordinate entries
(its top-left corner and x+width, y+height) with labels 2 and 3 precisely
when it is nonempty in the cv::Rect sense (width > 0 and height > 0); an
empty box, including every zero-area box, contributes nothing and is
indistinguishable from the absence of a box. -/
theorem c4_box_contribution (points negativePoints : List Pt) (roi : Rect) :
    (SamModel.encodePrompt points negativePoints roi).1 =
      (SamModel.encodePrompt points negativePoints rect0).1 ++
        (if roi.empty = true then []
         else [(roi.x : Rat), (roi.y : Rat), (roi.brx : Rat), (roi.bry : Rat)]) ∧
    (SamModel.encodePrompt points negativePoints roi).2 =
      (SamModel.encodePrompt points negativePoints rect0).2 ++
        (if roi.empty = true then [] else [2, 3]) := by
  have h0 : rect0.empty = true := rfl
  by_cases hr : roi.empty = true
  · simp [encodePrompt_eq, h0, hr]
  · simp [encodePrompt_eq, h0, hr, List.append_assoc]

/-- Claim C5 (confirmed): the flat coordinate array concatenates positive
points, negative points, then the box top-left and bottom-right corners,
and the labels are 1 per positive point, 0 per negative point, then 2 and
3 for the box corners, in that order; for 2 positive points, 1 negative
point and a box the label array is [1, 1, 0, 2, 3]. -/
theorem c5_prompt_encoding_order :
    (∀ (points negativePoints : List Pt) (roi : Rect),
      (SamModel.encodePrompt points negativePoints roi).1 =
        points.flatMap (fun q => [(q.x : Rat), (q.y : Rat)]) ++
          negativePoints.flatMap (fun q => [(q.x : Rat), (q.y : Rat)]) ++
          (if roi.empty = true then []
           else [(roi.x : Rat), (roi.y : Rat), (roi.brx : Rat), (roi.bry : Rat)]) ∧
      (SamModel.encodePrompt points negativePoints roi).2 =
        points.map (fun _ => (1 : Rat)) ++ negativePoints.map (fun _ => (0 : Rat)) ++
          (if roi.empty = true then [] else [2, 3])) ∧
    (SamModel.encodePrompt [⟨10, 10⟩, ⟨20, 20⟩] [⟨30, 30⟩] ⟨1, 1, 5, 5⟩).2 =
      [1, 1, 0, 2, 3] := by
  constructor
  · intro points negativePoints roi
    rw [encodePrompt_eq]
    exact ⟨rfl, rfl⟩
  · decide

/-- Claim C6 (confirmed): postprocessing thresholds the raw logits, after
the resize when the decoder mask size differs from the output size and
directly otherwise; a pixel is 255 exactly when its (possibly resized)
logit is strictly positive, no sigmoid intervenes, and every pixel is 0
or 255.  On a concrete loaded 2x2 session, a decoder output with logits
-1 and +1 yields mask pixels 0 and 255 at the image resolution 2x2. -/
theorem c6_resize_then_threshold :
    (∀ (rf : ResizeFn) (shape : List Int) (dat : Nat → Rat) (outRows outCols i j : Int),
      (postprocessMask rf shape dat outRows outCols i j = 0 ∨
        postprocessMask rf shape dat outRows outCols i j = 255) ∧
      postprocessMask rf shape dat outRows outCols i j =
        thresholdPixel
          ((if shape.getD 2 0 = outRows ∧ shape.getD 3 0 = outCols then rawLogits shape dat
            else rf (shape.getD 2 0) (shape.getD 3 0) outRows outCols
              (rawLogits shape dat)) i j) ∧
      (postprocessMask rf shape dat outRows outCols i j = 255 ↔
        0 < (if shape.getD 2 0 = outRows ∧ shape.getD 3 0 = outCols then rawLogits shape dat
             else rf (shape.getD 2 0) (shape.getD 3 0) outRows outCols
               (rawLogits shape dat)) i j)) ∧
    ((cmLoaded.getMask cdecC6 idResize [] [] rect0).toOption.map
      (fun res => (res.rows, res.cols)) = some (2, 2)) ∧
    ((cmLoaded.getMask cdecC6 idResize [] [] rect0).toOption.map
      (fun res => res.mask 0 0) = some 0) ∧
    ((cmLoaded.getMask cdecC6 idResize [] [] rect0).toOption.map
      (fun res => res.mask 0 1) = some 255) := by
  refine ⟨?_, rfl, rfl, rfl⟩
  intro rf shape dat outRows outCols i j
  refine ⟨?_, rfl, ?_⟩
  · by_cases hpos : 0 <
        (if shape.getD 2 0 = outRows ∧ shape.getD 3 0 = outCols then rawLogits shape dat
         else rf (shape.getD 2 0) (shape.getD 3 0) outRows outCols (rawLogits shape dat)) i j
    · right
      show thresholdPixel _ = 255
      rw [thresholdPixel, if_pos hpos]
    · left
      show thresholdPixel _ = 0
      rw [thresholdPixel, if_neg hpos]
  · by_cases hpos : 0 <
        (if shape.getD 2 0 = outRows ∧ shape.getD 3 0 = outCols then rawLogits shape dat
         else rf (shape.getD 2 0) (shape.getD 3 0) outRows outCols (rawLogits shape dat)) i j
    · constructor
      · intro _
        exact hpos
      · intro _
        show thresholdPixel _ = 255
        rw [thresholdPixel, if_pos hpos]
    · constructor
      · intro hcontra
        have h255 : thresholdPixel
            ((if shape.getD 2 0 = outRows ∧ shape.getD 3 0 = outCols then rawLogits shape dat
              else rf (shape.getD 2 0) (shape.getD 3 0) outRows outCols
                (rawLogits shape dat)) i j) = 255 := hcontra
        rw [thresholdPixel, if_neg hpos] at h255
        exact absurd h255 (by decide)
      · intro hcontra
        exact absurd hcontra hpos

/-- Claim C7 (confirmed): on every successfully loaded model pair,
getInputSize returns the width and height read from entries 3 and 2 of
the embedding model input shape, and loadImage rejects an image exactly
when its size differs from that size or its channel count is not 3. -/
theorem c7_shape_contract (pre sam : ModelFile) (enc : EncoderRun) (img : Image)
    (hload : (SamModel.construct pre sam).bModelLoaded = true) :
    (SamModel.construct pre sam).getInputSize =
      ⟨pre.inputShape.getD 3 0, pre.inputShape.getD 2 0⟩ ∧
    ((SamModel.construct pre sam).loadImage enc img =
        some (false, SamModel.construct pre sam) ↔
      ¬(img.width = pre.inputShape.getD 3 0 ∧ img.height = pre.inputShape.getD 2 0 ∧
        img.channels = 3)) := by
  by_cases h1 : pre.good = false ∨ sam.good = false
  · exfalso
    simp [SamModel.construct, h1, initSamModel] at hload
  by_cases hcnt : ¬(pre.inputCount = 1) ∨ ¬(pre.outputCount = 1)
  · exfalso
    simp [SamModel.construct, h1, hcnt, initSamModel] at hload
  by_cases hsam : ¬(sam.inputCount = 3)
  · exfalso
    simp [SamModel.construct, h1, hcnt, hsam, initSamModel] at hload
  by_cases hrank : ¬(pre.inputShape.length = 4) ∨ ¬(pre.outputShape.length = 4)
  · exfalso
    simp [SamModel.construct, h1, hcnt, hsam, hrank] at hload
  have hcon : SamModel.construct pre sam =
      { inputShapePre := pre.inputShape, outputShapePre := pre.outputShape,
        outputTensorValuesPre := [], bModelLoaded := true } := by
    simp [SamModel.construct, h1, hcnt, hsam, hrank]
  have hlen : pre.inputShape.length = 4 := not_not.mp (not_or.mp hrank).1
  obtain ⟨hg2, hg3⟩ := len4_get pre.inputShape hlen
  rw [hcon]
  constructor
  · simp [SamModel.getInputSize]
  · simp only [SamModel.loadImage, SamModel.loadImageShapeRead, hg2, hg3]
    by_cases hsz : img.width = pre.inputShape.getD 3 0 ∧ img.height = pre.inputShape.getD 2 0
    · obtain ⟨hw, hh⟩ := hsz
      by_cases hch : img.channels = 3
      · rw [if_pos ⟨hw, hh⟩, if_pos hch]
        cases hp : preprocessTensor img pre.inputShape with
        | none => simp [hw, hh, hch]
        | some t =>
          cases ho : SamModel.outputSizeRead
              { inputShapePre := pre.inputShape, outputShapePre := pre.outputShape,
                outputTensorValuesPre := [], bModelLoaded := true } with
          | none => simp [ho, hw, hh, hch]
          | some n => simp [ho, hw, hh, hch]
      · rw [if_pos ⟨hw, hh⟩, if_neg hch]
        exact iff_of_true rfl (fun hcon2 => hch hcon2.2.2)
    · rw [if_neg hsz]
      exact iff_of_true rfl (fun hcon2 => hsz ⟨hcon2.1, hcon2.2.1⟩)

/-- Witness for claim C7: the concrete valid model pair gives input size
2x2 and rejects a 5x5 image. -/
theorem c7_shape_contract_witness :
    (SamModel.construct preOk samOk).getInputSize = ⟨2, 2⟩ ∧
    (SamModel.construct preOk samOk).loadImage encZero imgBad =
      some (false, SamModel.construct preOk samOk) := by
  have hmain := c7_shape_contract preOk samOk encZero imgBad rfl
  exact ⟨hmain.1, hmain.2.mpr (by decide)⟩

/-- Claim C8 (confirmed): for an accepted image, an input shape
[1, 3, h, w] and an embedding output shape of at least 4 entries (so the
unguarded cache-sizing reads are in bounds, as on every state whose
construction passed the rank checks), the tensor handed to the embedding
model is the planar
red-green-blue reordering of the BGR image divided by 255, whose entry at
c*h*w + i*w + j is the byte of channel 2-c at pixel (i, j) over 255,
every entry lying in [0, 1]; on success the buffer filled by the
embedding run becomes the new cache, replacing the previous one. -/
theorem c8_preprocessing (m : SamModel) (enc : EncoderRun) (img : Image) (h w : Nat)
    (hs : m.inputShapePre = [1, 3, (h : Int), (w : Int)])
    (hos : 3 < m.outputShapePre.length)
    (hw : img.width = (w : Int)) (hh : img.height = (h : Int)) (hc : img.channels = 3) :
    m.loadImage enc img = some (true, { m with outputTensorValuesPre :=
      (List.range (numel4 m.outputShapePre).toNat).map (enc (planarImage img h w)) }) ∧
    (∀ i j, i < h → j < w →
      (planarImage img h w).get? (i * w + j) =
        some (((img.pixel i j 2 : Nat) : Rat) / 255) ∧
      (planarImage img h w).get? (h * w + (i * w + j)) =
        some (((img.pixel i j 1 : Nat) : Rat) / 255) ∧
      (planarImage img h w).get? (2 * (h * w) + (i * w + j)) =
        some (((img.pixel i j 0 : Nat) : Rat) / 255)) ∧
    (∀ v ∈ planarImage img h w, 0 ≤ v ∧ v ≤ 1) := by
  refine ⟨?_, fun i j hi hj => planarImage_get img h w i j hi hj, planarImage_mem img h w⟩
  have hg3 : ([1, 3, (h : Int), (w : Int)] : List Int).get? 3 = some (w : Int) := rfl
  have hg2 : ([1, 3, (h : Int), (w : Int)] : List Int).get? 2 = some (h : Int) := rfl
  simp only [SamModel.loadImage, SamModel.loadImageShapeRead, hs, hg3, hg2]
  rw [if_pos ⟨hw, hh⟩, if_pos hc, preprocess_planar img h w, outputSizeRead_of_len m hos]

/-- Witness for claim C8 on a concrete 1x1 image with byte value 51. -/
theorem c8_preprocessing_witness :
    mW.loadImage encZero img1 = some (true, { mW with outputTensorValuesPre :=
      (List.range (numel4 mW.outputShapePre).toNat).map (encZero (planarImage img1 1 1)) }) ∧
    (planarImage img1 1 1).get? 0 = some ((51 : Rat) / 255) := by
  have hmain := c8_preprocessing mW encZero img1 1 1 rfl (by decide) rfl rfl rfl
  refine ⟨hmain.1, ?_⟩
  have hv := (hmain.2.1 0 0 (by decide) (by decide)).1
  simpa using hv

/-- Claim C9 (confirmed): an empty prompt set encodes to zero-length
coordinate and label arrays, getMask performs no prompt validation, and
on a state whose cache matches the embedding shape the call succeeds,
still invoking the decoder on the three assembled tensors with point
shapes 1 x 0 x 2 and 1 x 0. -/
theorem c9_empty_prompt (m : SamModel) (dec : DecoderRun) (rf : ResizeFn) (h w : Int)
    (h2 : m.inputShapePre.get? 2 = some h) (h3 : m.inputShapePre.get? 3 = some w)
    (hc : (m.outputTensorValuesPre.length : Int) = numel m.outputShapePre) :
    SamModel.encodePrompt [] [] rect0 = ([], []) ∧
    decoderInputsOf m [] [] rect0 =
      [⟨TName.image_embeddings, m.outputShapePre, m.outputTensorValuesPre⟩,
       ⟨TName.point_coords, [1, 0, 2], []⟩, ⟨TName.point_labels, [1, 0], []⟩] ∧
    m.getMask dec rf [] [] rect0 =
      Except.ok ⟨h, w,
        postprocessMask rf (dec (decoderInputsOf m [] [] rect0)).maskShape
          (dec (decoderInputsOf m [] [] rect0)).maskData h w,
        (dec (decoderInputsOf m [] [] rect0)).iouData 0,
        decoderInputsOf m [] [] rect0⟩ :=
  ⟨rfl, rfl, getMask_ok m dec rf [] [] rect0 h w h2 h3 hc⟩

/-- Witness for claim C9 on the concrete loaded state. -/
theorem c9_empty_prompt_witness :
    cmLoaded.getMask cdec3 idResize [] [] rect0 =
      Except.ok ⟨2, 2,
        postprocessMask idResize (cdec3 (decoderInputsOf cmLoaded [] [] rect0)).maskShape
          (cdec3 (decoderInputsOf cmLoaded [] [] rect0)).maskData 2 2,
        (cdec3 (decoderInputsOf cmLoaded [] [] rect0)).iouData 0,
        decoderInputsOf cmLoaded [] [] rect0⟩ :=
  (c9_empty_prompt cmLoaded cdec3 idResize 2 2 rfl rfl rfl).2.2

/-- Claim C10 counterexample: an embedding model whose input shape has
rank 5 fails construction after the shape vectors are assigned, so the
loaded flag is false yet the input-shape vector is not empty and the
unguarded element reads of loadImage and getMask are in bounds; the
getMask call then fails on tensor creation, not on an out-of-bounds
access. -/
theorem c10_counterexample :
    (SamModel.construct preRank5 samOk).bModelLoaded = false ∧
    (SamModel.construct preRank5 samOk).inputShapePre = [1, 1, 3, 8, 8] ∧
    (SamModel.construct preRank5 samOk).loadImageShapeRead = some (8, 3) ∧
    (SamModel.construct preRank5 samOk).getMask cdec3 idResize [] [] rect0 =
      Except.error SamErr.ortException ∧
    SamErr.ortException ≠ SamErr.oobAccess := by
  refine ⟨rfl, rfl, rfl, rfl, by decide⟩

/-- Claim C10 (amended): getInputSize is guarded by the loaded flag and
returns (0,0) whenever it is false; loadImage and getMask are unguarded;
when construction fails before shape extraction (missing file or wrong
input/output count) the shape vector is empty, the loadImage shape read
is out of bounds and getMask reports the out-of-bounds outcome; whenever
the shape vector has at least 4 entries (in particular on every loaded
state) the shape reads are in bounds and getMask never reports it. -/
theorem c10_guard_structure :
    (∀ pre sam : ModelFile, (SamModel.construct pre sam).bModelLoaded = false →
      (SamModel.construct pre sam).getInputSize = ⟨0, 0⟩) ∧
    (∀ pre sam : ModelFile,
      (pre.good = false ∨ sam.good = false ∨ ¬(pre.inputCount = 1) ∨
        ¬(pre.outputCount = 1) ∨ ¬(sam.inputCount = 3)) →
      (SamModel.construct pre sam).inputShapePre = [] ∧
      (SamModel.construct pre sam).loadImageShapeRead = none ∧
      (∀ (dec : DecoderRun) (rf : ResizeFn) (points negativePoints : List Pt) (roi : Rect),
        (SamModel.construct pre sam).getMask dec rf points negativePoints roi =
          Except.error SamErr.oobAccess)) ∧
    (∀ m : SamModel, 3 < m.inputShapePre.length →
      m.loadImageShapeRead.isSome = true ∧
      (∀ (dec : DecoderRun) (rf : ResizeFn) (points negativePoints : List Pt) (roi : Rect),
        m.getMask dec rf points negativePoints roi ≠ Except.error SamErr.oobAccess)) := by
  refine ⟨?_, ?_, ?_⟩
  · intro pre sam hload
    simp only [SamModel.getInputSize]
    rw [if_pos hload]
  · intro pre sam hearly
    have hcon : SamModel.construct pre sam = initSamModel := by
      unfold SamModel.construct
      by_cases hg : pre.good = false ∨ sam.good = false
      · rw [if_pos hg]
      by_cases hcnt : ¬(pre.inputCount = 1) ∨ ¬(pre.outputCount = 1)
      · rw [if_neg hg, if_pos hcnt]
      by_cases hsam : ¬(sam.inputCount = 3)
      · rw [if_neg hg, if_neg hcnt, if_pos hsam]
      · exfalso
        rcases hearly with hx | hx | hx | hx | hx
        · exact hg (Or.inl hx)
        · exact hg (Or.inr hx)
        · exact hcnt (Or.inl hx)
        · exact hcnt (Or.inr hx)
        · exact hsam hx
    rw [hcon]
    exact ⟨rfl, rfl, fun dec rf points negativePoints roi => rfl⟩
  · intro m hm
    have h3x : ∃ a, m.inputShapePre.get? 3 = some a := by
      cases hx : m.inputShapePre.get? 3 with
      | none => exact absurd (List.get?_eq_none.mp hx) (by omega)
      | some a => exact ⟨a, rfl⟩
    have h2x : ∃ a, m.inputShapePre.get? 2 = some a := by
      cases hx : m.inputShapePre.get? 2 with
      | none => exact absurd (List.get?_eq_none.mp hx) (by omega)
      | some a => exact ⟨a, rfl⟩
    obtain ⟨w0, hw0⟩ := h3x
    obtain ⟨h0, hh0⟩ := h2x
    constructor
    · have hw0x : m.inputShapePre[3]? = some w0 := by
        rw [← List.get?_eq_getElem?]
        exact hw0
      have hh0x : m.inputShapePre[2]? = some h0 := by
        rw [← List.get?_eq_getElem?]
        exact hh0
      simp [SamModel.loadImageShapeRead, hw0x, hh0x]
    · intro dec rf points negativePoints roi
      exact getMask_not_oob m dec rf points negativePoints roi h0 w0 hh0 hw0

/-- Witness for claim C10 at concrete model files and states. -/
theorem c10_guard_structure_witness :
    (SamModel.construct preMissing samOk).getInputSize = ⟨0, 0⟩ ∧
    (SamModel.construct preMissing samOk).inputShapePre = [] ∧
    (SamModel.construct preMissing samOk).loadImageShapeRead = none ∧
    (SamModel.construct preMissing samOk).getMask cdec3 idResize [] [] rect0 =
      Except.error SamErr.oobAccess ∧
    cmLoaded.loadImageShapeRead.isSome = true ∧
    cmLoaded.getMask cdec3 idResize [] [] rect0 ≠ Except.error SamErr.oobAccess := by
  have hp2 := c10_guard_structure.2.1 preMissing samOk (Or.inl rfl)
  have hp3 := c10_guard_structure.2.2 cmLoaded (by decide)
  exact ⟨c10_guard_structure.1 preMissing samOk rfl, hp2.1, hp2.2.1,
    hp2.2.2 cdec3 idResize [] [] rect0, hp3.1, hp3.2 cdec3 idResize [] [] rect0⟩
